import Mathlib

/-!
Verification of `camera-alert-to-telegram` (src/app.py, src/config.py).

Shallow embedding conventions:
* timestamps (`datetime.now()`) and `timedelta`s are integers counting
  microseconds (`ℤ`): Python's `datetime`/`timedelta` arithmetic has exact
  integer microsecond resolution, and `timedelta(seconds=s)` for an integer
  `s` is exactly `s * 1000000` microseconds;
* Python `None`-able values are `Option`; Python truthiness of a datetime is
  `Option.isSome`;
* frames are opaque tokens `ℕ`; the frame buffer is a `List (ℤ × ℕ)` of
  (timestamp, frame) pairs in append order (the `collections.deque` with
  `maxlen` is modelled by `dequeAppend`);
* the video directory is a `List VideoFile`; `cv2.VideoWriter` creation is an
  input flag `encoderOpens : Bool` (whether some codec of the probe list
  opens), and opening the writer creates the (initially empty) file;
* `os.path.getctime` is the `ctime` field, distinct per file.
-/

/-- `timedelta(seconds=s)` for an integer number of seconds, in
microseconds. -/
def timedeltaSeconds (s : ℕ) : ℤ := (s : ℤ) * 1000000

/-- `timedelta(seconds=v / 2)` for an integer `v`: Python's true division
`v / 2` is an exactly representable float and the microsecond-resolution
`timedelta` makes this exactly `v * 500000` microseconds. -/
def halfSeconds (v : ℕ) : ℤ := (v : ℤ) * 500000

/-- The configuration attributes of `Config` read by `app.py`
(`src/config.py` class attributes after `Config.load`). -/
structure MDConfig where
  fps : ℕ
  min_motion_frames : ℕ
  video_length_secs : ℕ
  secs_between_alerts : ℕ
  max_video_files : ℕ
  motion_picture : Bool
  use_telegram : Bool
  motion_picture_cooldown_secs : ℕ
deriving DecidableEq

/-- The mutable per-frame state threaded through `process_frames` /
`handle_motion_detection` (src/app.py lines 259-331). -/
structure MDState where
  last_motion : Option ℤ
  last_alert : Option ℤ
  on_alert : Bool
  motion_frame_count : ℕ
  last_motion_picture_time : Option ℤ
  first_motion_time : Option ℤ
deriving DecidableEq

/-- Initial state: `process_frames` starts with `on_alert = False`,
`motion_frame_count = 0` and `initialize_processing` returns all-`None`
times (src/app.py lines 36-40, 327-331). -/
def initState : MDState :=
  { last_motion := none, last_alert := none, on_alert := false,
    motion_frame_count := 0, last_motion_picture_time := none,
    first_motion_time := none }

/-- A file written to the video directory: creation time and frame content
(`cv2.VideoWriter` output). -/
structure VideoFile where
  ctime : ℕ
  frames : List ℕ
deriving DecidableEq

/-- Ordering used by `existing_videos.sort(key=os.path.getctime)`
(src/app.py line 159). -/
def fileLe (a b : VideoFile) : Prop := a.ctime ≤ b.ctime

instance : DecidableRel fileLe := fun a b => inferInstanceAs (Decidable (a.ctime ≤ b.ctime))

/-- The retention loop `while len(existing_videos) > Config.max_video_files:
old_file = existing_videos.pop(0); os.remove(old_file)`
(src/app.py lines 160-166). -/
def pruneOldest (k : ℕ) : List VideoFile → List VideoFile
  | [] => []
  | f :: rest => if k < (f :: rest).length then pruneOldest k rest else f :: rest

/-- `int(Config.fps * (Config.video_length_secs + Config.secs_between_alerts + 5))`,
the `maxlen` of the frame deque (src/app.py lines 531-533). -/
def bufferSize (cfg : MDConfig) : ℕ :=
  cfg.fps * (cfg.video_length_secs + cfg.secs_between_alerts + 5)

/-- `video_buffer.append((now, frame.copy()))` on a `deque(maxlen=cap)`
(src/app.py line 342): the new entry goes to the back and, past capacity,
oldest entries fall off the front. -/
def dequeAppend (cap : ℕ) (buf : List α) (x : α) : List α :=
  (buf ++ [x]).drop (buf.length + 1 - cap)

/-- The window `[save_start_time, save_end_time]` computed by `save_video`
(src/app.py lines 126-133): centered on `first_motion_time` (half the
duration each side) when it is set and the prefix is "motion", otherwise the
tail window `[now - duration, now]`. -/
def saveWindow (d : ℕ) (pfx : String) (first_motion_time : Option ℤ) (now : ℤ) : ℤ × ℤ :=
  match first_motion_time with
  | some t =>
      if pfx = "motion" then (t - halfSeconds d, t + halfSeconds d)
      else (now - timedeltaSeconds d, now)
  | none => (now - timedeltaSeconds d, now)

/-- The frames handed to the encoder: the loop
`for timestamp, frame in buffer_copy: if save_start_time <= timestamp <= save_end_time: out.write(frame)`
(src/app.py lines 146-149). -/
def writtenFrames (buffer : List (ℤ × ℕ)) (st en : ℤ) : List (ℤ × ℕ) :=
  buffer.filter (fun p => decide (st ≤ p.1) && decide (p.1 ≤ en))

/-- `save_video(video_buffer, duration_seconds, prefix, first_motion_time)`
(src/app.py lines 78-181).  Returns the saved filename (identified by its
creation stamp) and the resulting video directory.  Empty buffer or no codec
opening returns `None` with the directory unchanged; opening the writer
creates the file; if no buffered frame falls inside the window the function
returns `None` early (lines 151-153) — before the retention block — leaving
the zero-frame file on disk; otherwise retention sorts by creation time and
deletes oldest while the count exceeds `max_video_files`. -/
def save_video (cfg : MDConfig) (fs : List VideoFile) (video_buffer : List (ℤ × ℕ))
    (duration_seconds : Option ℕ) (pfx : String) (first_motion_time : Option ℤ)
    (now : ℤ) (newCtime : ℕ) (encoderOpens : Bool) : Option ℕ × List VideoFile :=
  let save_duration := duration_seconds.getD cfg.video_length_secs
  if video_buffer = [] then (none, fs)
  else if encoderOpens = false then (none, fs)
  else
    let w := saveWindow save_duration pfx first_motion_time now
    let written := writtenFrames video_buffer w.1 w.2
    if written = [] then (none, fs ++ [⟨newCtime, []⟩])
    else
      let fs2 := fs ++ [⟨newCtime, written.map Prod.snd⟩]
      (some newCtime, pruneOldest cfg.max_video_files (List.insertionSort fileLe fs2))

/-- `update_motion_frame_count` (src/app.py lines 237-244): increment on a
positive classification, reset to 0 otherwise; sustained iff the new count
reaches `min_motion_frames`. -/
def update_motion_frame_count (cfg : MDConfig) (current_motion_detected : Bool)
    (current_count : ℕ) : ℕ × Bool :=
  let c := if current_motion_detected then current_count + 1 else 0
  (c, decide (cfg.min_motion_frames ≤ c))

/-- The `if motion_detected and not last_motion: first_motion_time = now`
block of `handle_motion_detection` (src/app.py lines 268-269). -/
def firstMotionUpdate (now : ℤ) (motion_detected : Bool) (s : MDState) : Option ℤ :=
  if motion_detected && s.last_motion.isNone then some now else s.first_motion_time

/-- The motion-picture cooldown update inside the same block
(src/app.py lines 272-284): `last_motion_picture_time = now` when a picture
is sent. -/
def motionPictureUpdate (cfg : MDConfig) (now : ℤ) (motion_detected : Bool)
    (s : MDState) : Option ℤ :=
  if motion_detected && s.last_motion.isNone then
    if cfg.motion_picture && cfg.use_telegram then
      let can_send_picture :=
        match s.last_motion_picture_time with
        | none => true
        | some t => decide (timedeltaSeconds cfg.motion_picture_cooldown_secs < now - t)
      if can_send_picture then some now else s.last_motion_picture_time
    else s.last_motion_picture_time
  else s.last_motion_picture_time

/-- `time_since_first_motion = now - first_motion_time if first_motion_time
else timedelta(seconds=0)` (src/app.py line 288). -/
def elapsedSince (now : ℤ) : Option ℤ → ℤ
  | some t => now - t
  | none => 0

/-- `can_alert = last_alert is None or (now - last_alert) > min_time_between_alerts`
(src/app.py lines 311-312). -/
def canAlert (cfg : MDConfig) (now : ℤ) (la : Option ℤ) : Bool :=
  match la with
  | none => true
  | some t => decide (timedeltaSeconds cfg.secs_between_alerts < now - t)

/-- The trailing `last_motion` update (src/app.py lines 319-322): refresh on
motion, expire after a gap of more than `timedelta(seconds=2)`. -/
def lastMotionUpdate (now : ℤ) (motion_detected : Bool) (lm : Option ℤ) : Option ℤ :=
  if motion_detected then some now
  else
    match lm with
    | some t => if decide (timedeltaSeconds 2 < now - t) then none else some t
    | none => none

/-- Output of the `if on_alert:` recording block. -/
structure RecOut where
  oa : Bool
  count : ℕ
  la : Option ℤ
  fmt : Option ℤ
  fs : List VideoFile
  saveCall : Option (ℕ × Option ℤ)
  savedPath : Option ℕ
deriving DecidableEq

/-- The `if on_alert:` block of `handle_motion_detection`
(src/app.py lines 286-308): when the time since `first_motion_time` (zero if
unset) reaches `timedelta(seconds=Config.video_length_secs / 2)`, call
`save_video(video_buffer, Config.video_length_secs, "motion", first_motion_time)`
and then unconditionally set `on_alert = False`, `motion_frame_count = 0`,
`last_alert = now`, `first_motion_time = None`.  `saveCall` records the
(duration, first_motion_time) arguments of the `save_video` invocation and
`savedPath` its return value. -/
def recordingStep (cfg : MDConfig) (now : ℤ) (video_buffer : List (ℤ × ℕ))
    (fs : List VideoFile) (encoderOpens : Bool) (newCtime : ℕ)
    (count1 : ℕ) (fmt1 : Option ℤ) (s : MDState) : RecOut :=
  if s.on_alert then
    if halfSeconds cfg.video_length_secs ≤ elapsedSince now fmt1 then
      let sv := save_video cfg fs video_buffer (some cfg.video_length_secs) "motion"
        fmt1 now newCtime encoderOpens
      ⟨false, 0, some now, none, sv.2, some (cfg.video_length_secs, fmt1), sv.1⟩
    else ⟨s.on_alert, count1, s.last_alert, fmt1, fs, none, none⟩
  else ⟨s.on_alert, count1, s.last_alert, fmt1, fs, none, none⟩

/-- Result of one `handle_motion_detection` call: the returned state tuple,
the video directory, and the observable events of the call. -/
structure StepResult where
  state : MDState
  fs : List VideoFile
  saveCall : Option (ℕ × Option ℤ)
  savedPath : Option ℕ
  alertFired : Bool
deriving DecidableEq

/-- `handle_motion_detection` (src/app.py lines 259-324), in source order:
update `motion_frame_count` / `is_sustained_motion`; the first-motion block
(sets `first_motion_time` and possibly `last_motion_picture_time`); the
`if on_alert:` recording block; the `if is_sustained_motion and not on_alert:`
alert-opening block (`last_alert = now; on_alert = True`, logged as
"Starting ALERT" — recorded here as `alertFired`); the `last_motion`
refresh/expiry. -/
def handle_motion_detection (cfg : MDConfig) (now : ℤ) (motion_detected : Bool)
    (video_buffer : List (ℤ × ℕ)) (fs : List VideoFile) (encoderOpens : Bool)
    (newCtime : ℕ) (s : MDState) : StepResult :=
  let u := update_motion_frame_count cfg motion_detected s.motion_frame_count
  let fmt1 := firstMotionUpdate now motion_detected s
  let lmpt1 := motionPictureUpdate cfg now motion_detected s
  let rc := recordingStep cfg now video_buffer fs encoderOpens newCtime u.1 fmt1 s
  let fired := u.2 && !rc.oa && canAlert cfg now rc.la
  { state :=
      { last_motion := lastMotionUpdate now motion_detected s.last_motion,
        last_alert := if fired then some now else rc.la,
        on_alert := if fired then true else rc.oa,
        motion_frame_count := rc.count,
        last_motion_picture_time := lmpt1,
        first_motion_time := rc.fmt },
    fs := rc.fs, saveCall := rc.saveCall, savedPath := rc.savedPath,
    alertFired := fired }

/-- The minimum-value enforcement at the end of `Config.parse_arguments`
(src/config.py lines 107-110): `video_length_secs = max(video_length_secs, 4)`,
`detection_seconds = max(detection_seconds, 0)`,
`secs_between_alerts = max(secs_between_alerts, video_length_secs + 1)`. -/
def parse_arguments_clamp (video_seconds detection_seconds secs_between_alerts : ℤ) :
    ℤ × ℤ × ℤ :=
  let v := max video_seconds 4
  let d := max detection_seconds 0
  let s := max secs_between_alerts (v + 1)
  (v, d, s)

/-- Run `handle_motion_detection` over a list of (timestamp, classifier
output) inputs, threading the state, with a fixed (empty) buffer and
directory; collects each call's `StepResult`. -/
def runSteps (cfg : MDConfig) (s : MDState) : List (ℤ × Bool) → List StepResult
  | [] => []
  | (t, m) :: rest =>
      let r := handle_motion_detection cfg t m [] [] true 0 s
      r :: runSteps cfg r.state rest

/-! ### Helper lemmas -/

theorem dequeAppend_length_le {α : Type} (cap : ℕ) (buf : List α) (x : α) :
    (dequeAppend cap buf x).length ≤ cap := by
  simp only [dequeAppend, List.length_drop, List.length_append, List.length_cons,
    List.length_nil]
  omega

theorem foldl_dequeAppend_length {α : Type} (cap : ℕ) :
    ∀ (xs : List α) (buf : List α), buf.length ≤ cap →
      (xs.foldl (dequeAppend cap) buf).length ≤ cap
  | [], _, h => h
  | x :: xs, buf, _ =>
      foldl_dequeAppend_length cap xs (dequeAppend cap buf x)
        (dequeAppend_length_le cap buf x)

theorem dequeAppend_at_capacity {α : Type} (cap : ℕ) (buf : List α) (x : α)
    (hlen : buf.length = cap) (hpos : 0 < cap) :
    dequeAppend cap buf x = buf.tail ++ [x] := by
  cases buf with
  | nil => simp at hlen; omega
  | cons b bs =>
      simp only [dequeAppend, List.cons_append, List.length_cons]
      have h1 : bs.length + 1 + 1 - cap = 1 := by simp at hlen; omega
      rw [h1, List.drop_one]
      rfl

theorem canAlert_iff (cfg : MDConfig) (now : ℤ) (la : Option ℤ) :
    canAlert cfg now la = true ↔
      (la = none ∨ ∃ t, la = some t ∧
        timedeltaSeconds cfg.secs_between_alerts < now - t) := by
  cases la <;> simp [canAlert]

theorem canAlert_self_false (cfg : MDConfig) (now : ℤ) :
    canAlert cfg now (some now) = false := by
  simp only [canAlert, sub_self, decide_eq_false_iff_not, not_lt, timedeltaSeconds]
  positivity

/-! ### Claims -/

/-- C3: the frame ring buffer, a deque of capacity
`int(fps * (video_length_secs + secs_between_alerts + 5))`, never holds more
than that many entries under any sequence of appends; an append at capacity
evicts exactly the oldest entry; and appending 15 timestamped frames
sequentially to a capacity-10 buffer leaves exactly the latest 10
timestamps, in insertion order. -/
theorem C3_ring_buffer (cfg : MDConfig) (xs : List (ℤ × ℕ)) (buf : List (ℤ × ℕ))
    (x : ℤ × ℕ) (hlen : buf.length = bufferSize cfg) (hpos : 0 < bufferSize cfg) :
    (xs.foldl (dequeAppend (bufferSize cfg)) []).length ≤ bufferSize cfg ∧
    dequeAppend (bufferSize cfg) buf x = buf.tail ++ [x] ∧
    ((List.range' 1 15).map (fun i : ℕ => ((i : ℤ), i))).foldl (dequeAppend 10) []
      = (List.range' 6 10).map (fun i : ℕ => ((i : ℤ), i)) := by
  refine ⟨foldl_dequeAppend_length _ xs [] (by simp), ?_, by decide⟩
  exact dequeAppend_at_capacity _ buf x hlen hpos

/-- Witness for C3 at a concrete configuration (fps 1, video length 4,
cooldown 5, so capacity 14) and a concrete full buffer. -/
theorem C3_ring_buffer_witness :
    (((List.range' 1 20).map (fun i : ℕ => ((i : ℤ), i))).foldl
        (dequeAppend (bufferSize ⟨1, 2, 4, 5, 20, false, false, 0⟩)) []).length
      ≤ bufferSize ⟨1, 2, 4, 5, 20, false, false, 0⟩ ∧
    dequeAppend (bufferSize ⟨1, 2, 4, 5, 20, false, false, 0⟩)
        ((List.range' 1 14).map (fun i : ℕ => ((i : ℤ), i))) (15, 15)
      = ((List.range' 1 14).map (fun i : ℕ => ((i : ℤ), i))).tail ++ [(15, 15)] ∧
    ((List.range' 1 15).map (fun i : ℕ => ((i : ℤ), i))).foldl (dequeAppend 10) []
      = (List.range' 6 10).map (fun i : ℕ => ((i : ℤ), i)) :=
  C3_ring_buffer ⟨1, 2, 4, 5, 20, false, false, 0⟩
    ((List.range' 1 20).map (fun i : ℕ => ((i : ℤ), i)))
    ((List.range' 1 14).map (fun i : ℕ => ((i : ℤ), i))) (15, 15)
    (by decide) (by decide)

/-- C9: after `Config.parse_arguments` completes its minimum-value
enforcement, `secs_between_alerts ≥ video_length_secs + 1` holds for every
input, and an input `secs_between_alerts` below the configured
`video_length_secs` comes out as exactly `video_length_secs + 1` (both values
after clamping). -/
theorem C9_config_clamp (v d s : ℤ) :
    (parse_arguments_clamp v d s).1 + 1 ≤ (parse_arguments_clamp v d s).2.2 ∧
    (s < v → (parse_arguments_clamp v d s).2.2 = (parse_arguments_clamp v d s).1 + 1) := by
  unfold parse_arguments_clamp
  constructor
  · simp only
    omega
  · intro h
    simp only
    omega

/-- Witness for C9: `--video-seconds 8 --secs-between-alerts 3` comes out as
`secs_between_alerts = 9 = video_length_secs + 1`. -/
theorem C9_config_clamp_witness :
    (parse_arguments_clamp 8 2 3).1 + 1 ≤ (parse_arguments_clamp 8 2 3).2.2 ∧
    (parse_arguments_clamp 8 2 3).2.2 = (parse_arguments_clamp 8 2 3).1 + 1 :=
  ⟨(C9_config_clamp 8 2 3).1, (C9_config_clamp 8 2 3).2 (by decide)⟩

/-- C4 as stated is false: when zero buffered frames fall in the window,
`save_video` returns at src/app.py line 153, before any cleanup, so the
zero-frame file created by opening the `cv2.VideoWriter` is not deleted.
Concretely: a buffer holding one frame at t = 10s and a tail window
`[now - 4s, now]` with now = 0 yields no in-window frame; `save_video`
returns `None`, yet the directory, empty beforehand, now contains the
zero-frame artifact. -/
theorem C4_counterexample :
    (save_video ⟨5, 2, 4, 5, 20, false, false, 0⟩ [] [((10000000 : ℤ), 0)]
        none "clip" none 0 7 true).1 = none ∧
    (save_video ⟨5, 2, 4, 5, 20, false, false, 0⟩ [] [((10000000 : ℤ), 0)]
        none "clip" none 0 7 true).2 ≠ [] := by
  decide

/-- C4 (amended): `save_video` hands to the encoder exactly the buffered
frames whose timestamp t satisfies start ≤ t ≤ end of the computed window,
and no frame outside it; if zero buffered frames fall in the window it
returns none — but the zero-frame file created by opening the encoder is not
deleted: the directory afterwards is the old directory plus that empty
artifact. -/
theorem C4_amended (cfg : MDConfig) (fs : List VideoFile) (buffer : List (ℤ × ℕ))
    (dur : Option ℕ) (pfx : String) (fmt : Option ℤ) (now : ℤ) (ct : ℕ) (st en : ℤ)
    (hbuf : buffer ≠ [])
    (hw : saveWindow (dur.getD cfg.video_length_secs) pfx fmt now = (st, en)) :
    (∀ p : ℤ × ℕ, p ∈ writtenFrames buffer st en ↔ p ∈ buffer ∧ st ≤ p.1 ∧ p.1 ≤ en) ∧
    (writtenFrames buffer st en = [] →
      save_video cfg fs buffer dur pfx fmt now ct true = (none, fs ++ [⟨ct, []⟩])) ∧
    (writtenFrames buffer st en ≠ [] →
      (save_video cfg fs buffer dur pfx fmt now ct true).1 = some ct) := by
  refine ⟨?_, ?_, ?_⟩
  · intro p
    simp [writtenFrames, List.mem_filter, and_assoc]
  · intro hempty
    simp only [save_video, if_neg hbuf, hw]
    simp [hempty]
  · intro hne
    simp only [save_video, if_neg hbuf, hw]
    simp [hne]

/-- Witness for C4 (amended): one frame at t = 2s, centered window
`[0s, 4s]` around first motion at 2s — the frame is in the window and the
call succeeds; instantiated through the theorem. -/
theorem C4_amended_witness :
    (∀ p : ℤ × ℕ, p ∈ writtenFrames [((2000000 : ℤ), 9)] 0 4000000 ↔
      p ∈ [((2000000 : ℤ), 9)] ∧ (0 : ℤ) ≤ p.1 ∧ p.1 ≤ 4000000) ∧
    (writtenFrames [((2000000 : ℤ), 9)] 0 4000000 = [] →
      save_video ⟨5, 2, 4, 5, 20, false, false, 0⟩ [] [((2000000 : ℤ), 9)]
        none "motion" (some 2000000) 2000000 7 true = (none, [] ++ [⟨7, []⟩])) ∧
    (writtenFrames [((2000000 : ℤ), 9)] 0 4000000 ≠ [] →
      (save_video ⟨5, 2, 4, 5, 20, false, false, 0⟩ [] [((2000000 : ℤ), 9)]
        none "motion" (some 2000000) 2000000 7 true).1 = some 7) :=
  C4_amended ⟨5, 2, 4, 5, 20, false, false, 0⟩ [] [((2000000 : ℤ), 9)]
    none "motion" (some 2000000) 2000000 7 0 4000000 (by decide) (by decide)

/-- C1: while the machine is recording (`on_alert` true), clip extraction is
triggered exactly when the time elapsed since the alert's declared start
(`first_motion_time`, zero if unset) reaches `video_length_secs / 2`; on
reaching that threshold the call invokes `save_video` with the configured
`video_length_secs` window centered on `first_motion_time`, transitions to
idle (`on_alert` false), resets `motion_frame_count` to 0, and records
`last_alert = now`. -/
theorem C1_recording_threshold (cfg : MDConfig) (now : ℤ) (motion : Bool)
    (buffer : List (ℤ × ℕ)) (fs : List VideoFile) (enc : Bool) (ct : ℕ) (s : MDState)
    (h : s.on_alert = true) :
    ((handle_motion_detection cfg now motion buffer fs enc ct s).saveCall.isSome = true ↔
      halfSeconds cfg.video_length_secs ≤ elapsedSince now (firstMotionUpdate now motion s)) ∧
    (halfSeconds cfg.video_length_secs ≤ elapsedSince now (firstMotionUpdate now motion s) →
      (handle_motion_detection cfg now motion buffer fs enc ct s).saveCall =
        some (cfg.video_length_secs, firstMotionUpdate now motion s) ∧
      (handle_motion_detection cfg now motion buffer fs enc ct s).state.on_alert = false ∧
      (handle_motion_detection cfg now motion buffer fs enc ct s).state.motion_frame_count = 0 ∧
      (handle_motion_detection cfg now motion buffer fs enc ct s).state.last_alert = some now) := by
  by_cases hth : halfSeconds cfg.video_length_secs ≤
      elapsedSince now (firstMotionUpdate now motion s)
  · simp [handle_motion_detection, recordingStep, h, hth, canAlert_self_false]
  · simp [handle_motion_detection, recordingStep, h, hth]

/-- Witness for C1: a recording state with first motion 2 seconds ago and
`video_length_secs = 4` — the elapsed time has just reached half the window. -/
theorem C1_recording_threshold_witness :
    ((handle_motion_detection ⟨5, 2, 4, 5, 20, false, false, 0⟩ 2000000 false [] [] true 0
        ⟨some 0, some 0, true, 3, none, some 0⟩).saveCall.isSome = true ↔
      halfSeconds 4 ≤ elapsedSince 2000000
        (firstMotionUpdate 2000000 false ⟨some 0, some 0, true, 3, none, some 0⟩)) ∧
    (halfSeconds 4 ≤ elapsedSince 2000000
        (firstMotionUpdate 2000000 false ⟨some 0, some 0, true, 3, none, some 0⟩) →
      (handle_motion_detection ⟨5, 2, 4, 5, 20, false, false, 0⟩ 2000000 false [] [] true 0
        ⟨some 0, some 0, true, 3, none, some 0⟩).saveCall =
        some (4, firstMotionUpdate 2000000 false ⟨some 0, some 0, true, 3, none, some 0⟩) ∧
      (handle_motion_detection ⟨5, 2, 4, 5, 20, false, false, 0⟩ 2000000 false [] [] true 0
        ⟨some 0, some 0, true, 3, none, some 0⟩).state.on_alert = false ∧
      (handle_motion_detection ⟨5, 2, 4, 5, 20, false, false, 0⟩ 2000000 false [] [] true 0
        ⟨some 0, some 0, true, 3, none, some 0⟩).state.motion_frame_count = 0 ∧
      (handle_motion_detection ⟨5, 2, 4, 5, 20, false, false, 0⟩ 2000000 false [] [] true 0
        ⟨some 0, some 0, true, 3, none, some 0⟩).state.last_alert = some 2000000) :=
  C1_recording_threshold ⟨5, 2, 4, 5, 20, false, false, 0⟩ 2000000 false [] [] true 0
    ⟨some 0, some 0, true, 3, none, some 0⟩ (by decide)

/-- C2 as stated is false: when the sustained-motion transition fires, the
code (src/app.py lines 314-317) sets only `last_alert = now` and
`on_alert = True` — it does not record `first_motion_time = now` (that field
was set at the first frame of the motion episode, line 269) and does not
reset `motion_frame_count`.  Concretely: from a state with count 1, recent
motion at t = 0 and `first_motion_time = 0`, a positive frame at t = 1s
fires the transition, after which the count is 2 (= `min_motion_frames`),
not 0, and `first_motion_time` is still 0s, not 1s. -/
theorem C2_counterexample :
    (handle_motion_detection ⟨5, 2, 4, 5, 20, false, false, 0⟩ 1000000 true [] [] true 0
      ⟨some 0, none, false, 1, none, some 0⟩).alertFired = true ∧
    ¬ ((handle_motion_detection ⟨5, 2, 4, 5, 20, false, false, 0⟩ 1000000 true [] [] true 0
        ⟨some 0, none, false, 1, none, some 0⟩).state.motion_frame_count = 0 ∧
       (handle_motion_detection ⟨5, 2, 4, 5, 20, false, false, 0⟩ 1000000 true [] [] true 0
        ⟨some 0, none, false, 1, none, some 0⟩).state.first_motion_time = some 1000000) := by
  decide

/-- C2 (amended): the transition into recording fires iff the updated
`motion_frame_count` has reached `min_motion_frames`, the machine is not
already recording, and the cooldown holds (`last_alert` unset, or
`now - last_alert > secs_between_alerts`); when it fires, the machine
transitions to recording and records `last_alert = now` — it does not reset
`motion_frame_count` (the updated count is kept) and does not touch
`first_motion_time` (which is set only on the first frame of a motion
episode). -/
theorem C2_amended (cfg : MDConfig) (now : ℤ) (motion : Bool)
    (buffer : List (ℤ × ℕ)) (fs : List VideoFile) (enc : Bool) (ct : ℕ) (s : MDState) :
    ((handle_motion_detection cfg now motion buffer fs enc ct s).alertFired = true ↔
      (cfg.min_motion_frames ≤ (update_motion_frame_count cfg motion s.motion_frame_count).1 ∧
       s.on_alert = false ∧
       (s.last_alert = none ∨ ∃ t, s.last_alert = some t ∧
          timedeltaSeconds cfg.secs_between_alerts < now - t))) ∧
    ((handle_motion_detection cfg now motion buffer fs enc ct s).alertFired = true →
      (handle_motion_detection cfg now motion buffer fs enc ct s).state.on_alert = true ∧
      (handle_motion_detection cfg now motion buffer fs enc ct s).state.last_alert = some now ∧
      (handle_motion_detection cfg now motion buffer fs enc ct s).state.motion_frame_count =
        (update_motion_frame_count cfg motion s.motion_frame_count).1 ∧
      (handle_motion_detection cfg now motion buffer fs enc ct s).state.first_motion_time =
        firstMotionUpdate now motion s) := by
  by_cases hoa : s.on_alert
  · by_cases hth : halfSeconds cfg.video_length_secs ≤
        elapsedSince now (firstMotionUpdate now motion s)
    · simp [handle_motion_detection, recordingStep, hoa, hth, canAlert_self_false]
    · simp [handle_motion_detection, recordingStep, hoa, hth]
  · by_cases hca : canAlert cfg now s.last_alert
    · have hiff := (canAlert_iff cfg now s.last_alert).mp hca
      simp only [handle_motion_detection, recordingStep, hoa, hca, hiff,
        update_motion_frame_count]
      simp [hiff]
      refine ⟨fun _ => hca, fun h _ => ⟨⟨h, hca⟩, fun hfalse => ?_⟩⟩
      rw [hfalse h] at hca
      exact absurd hca Bool.false_ne_true
    · have hiff : ¬ (s.last_alert = none ∨ ∃ t, s.last_alert = some t ∧
          timedeltaSeconds cfg.secs_between_alerts < now - t) := by
        intro hc
        exact hca ((canAlert_iff cfg now s.last_alert).mpr hc)
      simp [handle_motion_detection, recordingStep, hoa, hca, hiff]

/-- Witness for C2 (amended): the transition fires at t = 1s from a
non-recording state with count 1 and no previous alert; afterwards the
count is the updated count and `first_motion_time` is unchanged. -/
theorem C2_amended_witness :
    (handle_motion_detection ⟨5, 2, 4, 5, 20, false, false, 0⟩ 1000000 true [] [] true 0
      ⟨some 0, none, false, 1, none, some 0⟩).state.on_alert = true ∧
    (handle_motion_detection ⟨5, 2, 4, 5, 20, false, false, 0⟩ 1000000 true [] [] true 0
      ⟨some 0, none, false, 1, none, some 0⟩).state.last_alert = some 1000000 ∧
    (handle_motion_detection ⟨5, 2, 4, 5, 20, false, false, 0⟩ 1000000 true [] [] true 0
      ⟨some 0, none, false, 1, none, some 0⟩).state.motion_frame_count =
      (update_motion_frame_count ⟨5, 2, 4, 5, 20, false, false, 0⟩ true 1).1 ∧
    (handle_motion_detection ⟨5, 2, 4, 5, 20, false, false, 0⟩ 1000000 true [] [] true 0
      ⟨some 0, none, false, 1, none, some 0⟩).state.first_motion_time =
      firstMotionUpdate 1000000 true ⟨some 0, none, false, 1, none, some 0⟩ :=
  (C2_amended ⟨5, 2, 4, 5, 20, false, false, 0⟩ 1000000 true [] [] true 0
    ⟨some 0, none, false, 1, none, some 0⟩).2 (by decide)

/-- C5: whenever the recording-completion threshold is reached (a
`save_video` call is made) and `save_video` returns no artifact, the state
machine still transitions back to idle and clears its counters: `on_alert`
becomes false, `motion_frame_count` resets to 0, `first_motion_time` is
cleared, and `last_alert = now` is recorded — a failed save never leaves the
machine recording. -/
theorem C5_failed_save_still_idles (cfg : MDConfig) (now : ℤ) (motion : Bool)
    (buffer : List (ℤ × ℕ)) (fs : List VideoFile) (enc : Bool) (ct : ℕ) (s : MDState)
    (h1 : (handle_motion_detection cfg now motion buffer fs enc ct s).saveCall.isSome = true)
    (h2 : (handle_motion_detection cfg now motion buffer fs enc ct s).savedPath = none) :
    (handle_motion_detection cfg now motion buffer fs enc ct s).state.on_alert = false ∧
    (handle_motion_detection cfg now motion buffer fs enc ct s).state.motion_frame_count = 0 ∧
    (handle_motion_detection cfg now motion buffer fs enc ct s).state.first_motion_time = none ∧
    (handle_motion_detection cfg now motion buffer fs enc ct s).state.last_alert = some now := by
  by_cases hoa : s.on_alert
  · by_cases hth : halfSeconds cfg.video_length_secs ≤
        elapsedSince now (firstMotionUpdate now motion s)
    · simp [handle_motion_detection, recordingStep, hoa, hth, canAlert_self_false]
    · simp [handle_motion_detection, recordingStep, hoa, hth] at h1
  · simp [handle_motion_detection, recordingStep, hoa] at h1

/-- Witness for C5: threshold reached over an empty buffer, so `save_video`
returns `None`; the machine still returns to idle with cleared counters. -/
theorem C5_failed_save_still_idles_witness :
    (handle_motion_detection ⟨5, 2, 4, 5, 20, false, false, 0⟩ 2000000 false [] [] true 0
      ⟨some 0, some 0, true, 3, none, some 0⟩).state.on_alert = false ∧
    (handle_motion_detection ⟨5, 2, 4, 5, 20, false, false, 0⟩ 2000000 false [] [] true 0
      ⟨some 0, some 0, true, 3, none, some 0⟩).state.motion_frame_count = 0 ∧
    (handle_motion_detection ⟨5, 2, 4, 5, 20, false, false, 0⟩ 2000000 false [] [] true 0
      ⟨some 0, some 0, true, 3, none, some 0⟩).state.first_motion_time = none ∧
    (handle_motion_detection ⟨5, 2, 4, 5, 20, false, false, 0⟩ 2000000 false [] [] true 0
      ⟨some 0, some 0, true, 3, none, some 0⟩).state.last_alert = some 2000000 :=
  C5_failed_save_still_idles ⟨5, 2, 4, 5, 20, false, false, 0⟩ 2000000 false [] [] true 0
    ⟨some 0, some 0, true, 3, none, some 0⟩ (by decide) (by decide)

/-- C10: a `handle_motion_detection` call entered recording
(`on_alert` true) with `first_motion_time = None` treats the elapsed time as
zero, so with `video_length_secs ≥ 4` (guaranteed by configuration clamping)
no clip extraction is invoked during that call and the machine stays
recording. -/
theorem C10_recording_without_start (cfg : MDConfig) (now : ℤ) (motion : Bool)
    (buffer : List (ℤ × ℕ)) (fs : List VideoFile) (enc : Bool) (ct : ℕ) (s : MDState)
    (hoa : s.on_alert = true) (hfmt : s.first_motion_time = none)
    (hv : 4 ≤ cfg.video_length_secs) :
    (handle_motion_detection cfg now motion buffer fs enc ct s).saveCall = none ∧
    (handle_motion_detection cfg now motion buffer fs enc ct s).state.on_alert = true := by
  have helapsed : elapsedSince now (firstMotionUpdate now motion s) = 0 := by
    unfold firstMotionUpdate
    by_cases hm : motion && s.last_motion.isNone
    · simp [hm, elapsedSince]
    · simp [hm, hfmt, elapsedSince]
  have hth : ¬ halfSeconds cfg.video_length_secs ≤
      elapsedSince now (firstMotionUpdate now motion s) := by
    rw [helapsed]
    unfold halfSeconds
    have : (4 : ℤ) ≤ (cfg.video_length_secs : ℤ) := by exact_mod_cast hv
    omega
  simp [handle_motion_detection, recordingStep, hoa, hth]

/-- Witness for C10: recording with no declared start at t = 100s; no save
is invoked and the machine stays recording. -/
theorem C10_recording_without_start_witness :
    (handle_motion_detection ⟨5, 2, 4, 5, 20, false, false, 0⟩ 100000000 false [] [] true 0
      ⟨none, some 0, true, 0, none, none⟩).saveCall = none ∧
    (handle_motion_detection ⟨5, 2, 4, 5, 20, false, false, 0⟩ 100000000 false [] [] true 0
      ⟨none, some 0, true, 0, none, none⟩).state.on_alert = true :=
  C10_recording_without_start ⟨5, 2, 4, 5, 20, false, false, 0⟩ 100000000 false [] [] true 0
    ⟨none, some 0, true, 0, none, none⟩ (by decide) (by decide) (by decide)

/-- Configuration realizing the C6 scenario premises: `min_motion_frames = 2`
and the `secs_between_alerts` cooldown satisfied throughout (cooldown 0, so
any positive spacing satisfies it); `video_length_secs = 4`. -/
def scenarioConfig : MDConfig := ⟨5, 2, 4, 0, 20, false, false, 0⟩

/-- Classifier outputs `[T, T, F, T, T, T]` at 1-second frame spacing. -/
def scenarioInputs : List (ℤ × Bool) :=
  [(0, true), (1000000, true), (2000000, false),
   (3000000, true), (4000000, true), (5000000, true)]

/-- C6 as stated is false: in the `[T,T,F,T,T,T]` run with
`min_motion_frames = 2` and the cooldown satisfied throughout, the alert
transition fires at the 5th frame — the count, reset by the F, reaches 2
again on frames 4 and 5 — and nothing fires at the 6th frame (where the
count is already 3). -/
theorem C6_counterexample :
    ((runSteps scenarioConfig initState scenarioInputs).map
        (fun r => r.alertFired)).getD 5 false = false ∧
    ((runSteps scenarioConfig initState scenarioInputs).map
        (fun r => r.alertFired)).getD 4 false = true := by
  decide

/-- C6 (amended): with `min_motion_frames = 2`, classifier outputs
`[T,T,F,T,T,T]` at 1-second spacing, and the cooldown satisfied throughout,
the alert opens at the 2nd frame (the first time the count reaches 2);
`motion_frame_count` resets to 0 on the F frame — on which the elapsed time
since first motion also reaches half of `video_length_secs = 4`, so the
recording completes there — and the alert reopens at the 5th frame, when the
count again reaches 2 (frames 4 and 5); no transition occurs at the 6th
frame. -/
theorem C6_amended :
    (runSteps scenarioConfig initState scenarioInputs).map (fun r => r.alertFired)
      = [false, true, false, false, true, false] ∧
    (runSteps scenarioConfig initState scenarioInputs).map
        (fun r => r.state.motion_frame_count)
      = [1, 2, 0, 1, 2, 3] ∧
    (runSteps scenarioConfig initState scenarioInputs).map (fun r => r.saveCall.isSome)
      = [false, false, true, false, false, false] := by
  decide

/-- A one-frame buffer (frame token 42 at t = 0) used for iterated saves. -/
def retentionBuffer : List (ℤ × ℕ) := [(0, 42)]

/-- Configuration with retention cap `k` (`max_video_files = k`). -/
def retentionConfig (k : ℕ) : MDConfig := ⟨5, 2, 4, 5, k, false, false, 0⟩

/-- `n` successive successful `save_video` calls (tail window at `now = 0`
over `retentionBuffer`, so each call writes one frame), with strictly
increasing creation stamps `0, 1, …, n-1`. -/
def runSaves (k : ℕ) : ℕ → List VideoFile
  | 0 => []
  | n + 1 =>
      (save_video (retentionConfig k) (runSaves k n) retentionBuffer
        none "clip" none 0 n true).2

theorem pruneOldest_eq_drop (k : ℕ) :
    ∀ l : List VideoFile, pruneOldest k l = l.drop (l.length - k)
  | [] => by simp [pruneOldest]
  | f :: rest => by
      rw [pruneOldest]
      by_cases h : k < (f :: rest).length
      · rw [if_pos h, pruneOldest_eq_drop k rest]
        have h1 : (f :: rest).length - k = (rest.length - k) + 1 := by
          simp only [List.length_cons] at h ⊢
          omega
        rw [h1, List.drop_succ_cons]
      · rw [if_neg h]
        have h1 : (f :: rest).length - k = 0 := by
          simp only [List.length_cons] at h ⊢
          omega
        rw [h1, List.drop_zero]

theorem sorted_range_files (a m : ℕ) :
    List.Sorted fileLe
      ((List.range' a m).map (fun i : ℕ => (⟨i, [42]⟩ : VideoFile))) :=
  List.Pairwise.map _ (fun _ _ h => Nat.le_of_lt h) (List.pairwise_lt_range' a m)

theorem save_video_retention_step (k n : ℕ) (fs : List VideoFile) :
    (save_video (retentionConfig k) fs retentionBuffer none "clip" none 0 n true).2
      = pruneOldest k (List.insertionSort fileLe (fs ++ [⟨n, [42]⟩])) := rfl

theorem runSaves_eq (k : ℕ) :
    ∀ n, runSaves k n =
      (List.range' (n - min n k) (min n k)).map (fun i : ℕ => (⟨i, [42]⟩ : VideoFile))
  | 0 => by simp [runSaves]
  | n + 1 => by
      rw [runSaves, save_video_retention_step, runSaves_eq k n]
      have hconcat :
          (List.range' (n - min n k) (min n k)).map
              (fun i : ℕ => (⟨i, [42]⟩ : VideoFile)) ++ [⟨n, [42]⟩]
            = (List.range' (n - min n k) (min n k + 1)).map
                (fun i : ℕ => (⟨i, [42]⟩ : VideoFile)) := by
        rw [List.range'_concat, List.map_append]
        have : n - min n k + 1 * min n k = n := by omega
        rw [this]
        rfl
      rw [hconcat, (sorted_range_files _ _).insertionSort_eq, pruneOldest_eq_drop]
      rw [← List.map_drop]
      simp only [List.length_map, List.length_range']
      rcases Nat.lt_or_ge n k with hnk | hnk
      · have e1 : min n k = n := by omega
        have e2 : min (n + 1) k = n + 1 := by omega
        rw [e1, e2]
        have e3 : n + 1 - k = 0 := by omega
        rw [e3, List.drop_zero]
        simp
      · have e1 : min n k = k := by omega
        have e2 : min (n + 1) k = k := by omega
        have e3 : k + 1 - k = 1 := by omega
        rw [e1, e2, e3]
        rw [List.range'_succ, List.drop_one, List.tail_cons]
        have : n - k + 1 = n + 1 - k := by omega
        rw [this]

/-- C7: after every successful `save_video` call, retention deletes
oldest-first (by creation time) until at most `max_video_files` remain —
`pruneOldest k` keeps exactly the `length - k` newest of the
creation-time-sorted listing — and after `N` successful saves with
`max_video_files = k < N`, exactly `k` artifacts remain, namely the `k` most
recently created (creation stamps `N-k, …, N-1`). -/
theorem C7_retention (k N : ℕ) (h : k < N) :
    (∀ l : List VideoFile, pruneOldest k l = l.drop (l.length - k)) ∧
    runSaves k N
      = (List.range' (N - k) k).map (fun i : ℕ => (⟨i, [42]⟩ : VideoFile)) ∧
    (runSaves k N).length = k := by
  have hmin : min N k = k := by omega
  refine ⟨pruneOldest_eq_drop k, ?_, ?_⟩
  · rw [runSaves_eq k N, hmin]
  · rw [runSaves_eq k N, hmin]
    simp

/-- Witness for C7: three successful saves with retention cap 2 leave exactly
the two most recently created artifacts (creation stamps 1 and 2). -/
theorem C7_retention_witness :
    runSaves 2 3
      = (List.range' 1 2).map (fun i : ℕ => (⟨i, [42]⟩ : VideoFile)) ∧
    (runSaves 2 3).length = 2 :=
  ⟨(C7_retention 2 3 (by decide)).2.1, (C7_retention 2 3 (by decide)).2.2⟩
